import Mathlib

/-!
Shallow embedding of `ty.py`, a runtime contract-checking module: per-parameter
and per-return "specs" (types, unary predicates, or `all`/`any` combinations
of these) enforced by a decorator that intercepts calls.

The embedding models the Python dynamic world only as far as the module's code
inspects it: a small closed universe of classes (with their subclass relations
and with the `type(C) == type` metaclass test that `_check` performs), values
carrying a runtime class, truthiness, and exceptions as `Except` errors.
-/

namespace Ty

/-- The classes appearing in the model.  `intC`, `boolC`, `floatC`, `strC`,
`noneC`, `listC` stand for the Python built-ins (`bool` is a subclass of
`int`); `baseC`/`derivedC` are a user class and its subclass; `abcC` is a
user class whose metaclass is **not** `type` (for instance a concrete class
with `ABCMeta` as metaclass), which matters because `_check` tests
`type(test) == type`, not `isinstance(test, type)`. -/
inductive ClassId where
  | intC | boolC | floatC | strC | noneC | listC | baseC | derivedC | abcC
deriving DecidableEq, Repr

/-- Whether `type(C) == type` holds for the class: true for ordinary classes,
false for a class with a custom metaclass such as `ABCMeta`. -/
def ClassId.metaIsType : ClassId → Bool
  | .abcC => false
  | _ => true

/-- Direct-or-reflexive subclass test, `issubclass` on the model's closed
class universe: every class is a subclass of itself, Python's `bool` is a
subclass of `int`, and `derivedC` subclasses `baseC`. -/
def ClassId.isSubclassOf : ClassId → ClassId → Bool
  | c, d => c = d || (c = .boolC && d = .intC) || (c = .derivedC && d = .baseC)

/-- Python runtime values used by the model: integers, booleans, floats
(represented by tenths, so `25` stands for `2.5`), strings, `None`,
and instances of the user classes. -/
inductive PyVal where
  | int (n : Int)
  | bool (b : Bool)
  | float (tenths : Int)
  | str (s : String)
  | pyNone
  | obj (c : ClassId)
deriving DecidableEq, Repr

/-- The runtime class of a value, Python's `type(v)`. -/
def PyVal.typeOf : PyVal → ClassId
  | .int _ => .intC
  | .bool _ => .boolC
  | .float _ => .floatC
  | .str _ => .strC
  | .pyNone => .noneC
  | .obj c => c

/-- Python `isinstance(v, c)`: the runtime class of `v` is `c` or a subclass
of `c`. -/
def PyVal.isinstance (v : PyVal) (c : ClassId) : Bool :=
  v.typeOf.isSubclassOf c

/-- Python `bool(v)` coercion. -/
def PyVal.truthy : PyVal → Bool
  | .int n => n ≠ 0
  | .bool b => b
  | .float t => t ≠ 0
  | .str s => s ≠ ""
  | .pyNone => false
  | .obj _ => true

/-- Python exceptions that user predicates or the module's own plumbing can
raise.  `TypeCheckError` subclasses `TypeError` in the source, which is why
only the `isTypeError` distinction matters to the `except TypeError` clause of `any()`. -/
inductive PyErr where
  | typeError (msg : String)
  | valueError (msg : String)
  | otherError (msg : String)
deriving DecidableEq, Repr

/-- Whether the exception is a `TypeError` (or subclass), the only class of
exception caught by the `except TypeError` clause inside `any()`. -/
def PyErr.isTypeError : PyErr → Bool
  | .typeError _ => true
  | _ => false

/-- A value used as a type-check "test" (an annotation), classified by the
runtime shape that the dispatch in `_check` inspects:
  * `cls c` — a class object;
  * `call p` — a callable (user predicate); the call returns a value that is
    coerced with `bool(...)`, or raises;
  * `allOf ts` / `anyOf ts` — the closures produced by the module's `all(...)`
    and `any(...)` factories (these are themselves callables);
  * `other v` — any non-class non-callable value (a plain annotation),
    which `_check` lets pass. -/
inductive Test where
  | cls (c : ClassId)
  | call (p : PyVal → Except PyErr PyVal)
  | allOf (ts : List Test)
  | anyOf (ts : List Test)
  | other (v : PyVal)

/-- Calling a class object `C(v)`: only classes whose metaclass is not `type`
ever reach the callable branch of `_check`, and for the model class `abcC` (a concrete
one-argument-constructible class) the call returns a fresh instance. -/
def invokeClass (c : ClassId) (_v : PyVal) : Except PyErr PyVal :=
  .ok (.obj c)

mutual

/-- `_check(subject, test)` from the source: if `type(test) == type`, return
`isinstance(subject, test)`; else if `callable(test)`, return
`bool(test(subject))`; else return `True`. -/
def _check (subject : PyVal) : Test → Except PyErr Bool
  | .cls c =>
      if c.metaIsType then
        .ok (subject.isinstance c)
      else
        match invokeClass c subject with
        | .ok r => .ok r.truthy
        | .error e => .error e
  | .call p =>
      match p subject with
      | .ok r => .ok r.truthy
      | .error e => .error e
  | .allOf ts => allLoop subject ts
  | .anyOf ts => anyLoop subject ts
  | .other _ => .ok true

/-- The loop inside the closure returned by `all(*tests)`:
`for test in tests: if not _check(x, test): return False` then `return True`. -/
def allLoop (x : PyVal) : List Test → Except PyErr Bool
  | [] => .ok true
  | t :: rest =>
      match _check x t with
      | .ok true => allLoop x rest
      | .ok false => .ok false
      | .error e => .error e

/-- The loop inside the closure returned by `any(*tests)`:
`for test in tests: try: if _check(x, test): return True except TypeError: pass`
then `return False`. -/
def anyLoop (x : PyVal) : List Test → Except PyErr Bool
  | [] => .ok false
  | t :: rest =>
      match _check x t with
      | .ok true => .ok true
      | .ok false => anyLoop x rest
      | .error e => if e.isTypeError then anyLoop x rest else .error e

end

/-- The `all(*tests)` factory: returns the conjunction closure without
evaluating anything. -/
def all (tests : List Test) : Test := .allOf tests

/-- The `any(*tests)` factory: returns the disjunction closure without
evaluating anything. -/
def any (tests : List Test) : Test := .anyOf tests

/-- The data carried by the base `TypeCheckError` class: the name of the
element that failed the check, its value, and the test it failed. -/
structure TypeCheckError where
  var_name : String
  var_value : PyVal
  expected : Test

/-- The `InputTypeCheckError` constructor: if the name of the faulty argument
is `"return"`, it raises a plain `TypeError` instead of constructing the
error object; otherwise it produces the `TypeCheckError` record. -/
def mkInputTypeCheckError (var_name : String) (var_value : PyVal)
    (expected : Test) : Except PyErr TypeCheckError :=
  if var_name == "return" then
    .error (.typeError "Input exception used on output. For output, use OutputTypeCheckError.")
  else
    .ok ⟨var_name, var_value, expected⟩

/-- The `OutputTypeCheckError` constructor: takes only value and test, and
always records the name `"return"`. -/
def mkOutputTypeCheckError (var_value : PyVal) (expected : Test) :
    TypeCheckError :=
  ⟨"return", var_value, expected⟩

/-- How a call of a (possibly wrapped) function can terminate abnormally:
an `InputTypeCheckError`, an `OutputTypeCheckError`, or any other Python
exception propagating out (a predicate's own error, or plumbing errors such
as the `ValueError` from tuple-unpacking a keyword name). -/
inductive WrapErr where
  | input (e : TypeCheckError)
  | output (e : TypeCheckError)
  | raised (e : PyErr)

/-- A Python function as the decorator sees it: `getfullargspec(f).args`
(the declared positional parameter names, in declaration order),
`f.__annotations__` (a mapping from parameter names and `"return"` to
annotation values), and the body, which receives the original positional and
keyword arguments unmodified. -/
structure PyFunc where
  argNames : List String
  annotations : List (String × Test)
  body : List PyVal → List (String × PyVal) → Except PyErr PyVal

/-- `name in annotations` / `annotations[name]` on the annotation mapping. -/
def findAnn (anns : List (String × Test)) (name : String) : Option Test :=
  match anns with
  | [] => Option.none
  | (k, t) :: rest => if k == name then Option.some t else findAnn rest name

/-- The first loop of the wrapper:
`for name, value in zip(argspec.args, args):` check annotated names, raising
`InputTypeCheckError(name, value, annotation)` on a failed check.  The
argument list is the already-zipped `zip(argspec.args, args)`. -/
def checkPositional (anns : List (String × Test)) :
    List (String × PyVal) → Except WrapErr Unit
  | [] => .ok ()
  | (name, value) :: rest =>
      match findAnn anns name with
      | Option.none => checkPositional anns rest
      | Option.some t =>
          match _check value t with
          | .ok true => checkPositional anns rest
          | .ok false =>
              match mkInputTypeCheckError name value t with
              | .ok err => .error (.input err)
              | .error e => .error (.raised e)
          | .error e => .error (.raised e)

/-- Python tuple-unpacking `name, value = key` of a string: a 2-character
string unpacks into its two 1-character strings; any other length raises a
`ValueError`. -/
def unpackKey (key : String) : Except PyErr (String × String) :=
  match key.toList with
  | [c1, c2] => .ok (String.mk [c1], String.mk [c2])
  | _ => .error (.valueError "values to unpack")

/-- The second loop of the wrapper: `for name, value in kwargs:`.  Iterating
a dict yields its KEYS, so each key string is tuple-unpacked into
`(name, value)`: a 2-character key yields its two characters (and the check
then runs on the 1-character string `value`, under the 1-character `name`),
and any other key length raises a `ValueError`.  The stored argument values
are never consulted. -/
def checkKwargs (anns : List (String × Test)) :
    List (String × PyVal) → Except WrapErr Unit
  | [] => .ok ()
  | (key, _) :: rest =>
      match unpackKey key with
      | .error e => .error (.raised e)
      | .ok (name, value) =>
          match findAnn anns name with
          | Option.none => checkKwargs anns rest
          | Option.some t =>
              match _check (.str value) t with
              | .ok true => checkKwargs anns rest
              | .ok false =>
                  match mkInputTypeCheckError name (.str value) t with
                  | .ok err => .error (.input err)
                  | .error e => .error (.raised e)
              | .error e => .error (.raised e)

/-- The input-checking phase of the wrapper: the positional loop over
`zip(argspec.args, args)` followed by the keyword loop over `kwargs`. -/
def inputPhase (f : PyFunc) (args : List PyVal)
    (kwargs : List (String × PyVal)) : Except WrapErr Unit :=
  match checkPositional f.annotations (f.argNames.zip args) with
  | .error e => .error e
  | .ok () => checkKwargs f.annotations kwargs

/-- The body of `wrapper(*args, **kwargs)`: input checks, then
`output = f(*args, **kwargs)`, then the output check against
`argspec.annotations["return"]` when present, then `return output`. -/
def callWrapper (f : PyFunc) (args : List PyVal)
    (kwargs : List (String × PyVal)) : Except WrapErr PyVal :=
  match inputPhase f args kwargs with
  | .error e => .error e
  | .ok () =>
      match f.body args kwargs with
      | .error e => .error (.raised e)
      | .ok output =>
          match findAnn f.annotations "return" with
          | Option.none => .ok output
          | Option.some t =>
              match _check output t with
              | .ok true => .ok output
              | .ok false => .error (.output (mkOutputTypeCheckError output t))
              | .error e => .error (.raised e)

/-- In Python 3 every function object has an `__annotations__` attribute
(an empty dict when no annotations are declared), so
`hasattr(f, "__annotations__")` is always `True` for a function. -/
def hasattrAnnotations (_f : PyFunc) : Bool := true

/-- The result of `typecheck(f)`: either the original function object `f`
itself (reference identity preserved) or a fresh wrapper closure over `f`. -/
inductive Typechecked where
  | original (f : PyFunc)
  | wrapped (f : PyFunc)

/-- The `typecheck` decorator: `if not hasattr(f, "__annotations__"):
return f`, otherwise build and return the wrapper. -/
def typecheck (f : PyFunc) : Typechecked :=
  if hasattrAnnotations f then .wrapped f else .original f

/-- Calling the object `typecheck` returned: the original function runs its
body directly (any exception propagates as raised); the wrapper runs the
interception pipeline. -/
def callTypechecked : Typechecked → List PyVal → List (String × PyVal) →
    Except WrapErr PyVal
  | .original f, args, kwargs =>
      match f.body args kwargs with
      | .ok v => .ok v
      | .error e => .error (.raised e)
  | .wrapped f, args, kwargs => callWrapper f args kwargs

/-- Call-count instrumentation for the `all(*tests)` loop: same traversal as
`allLoop`, additionally counting how many sub-tests were passed to `_check`
before the loop returned. -/
def allLoopCount (x : PyVal) : List Test → (Except PyErr Bool) × Nat
  | [] => (.ok true, 0)
  | t :: rest =>
      match _check x t with
      | .ok true => ((allLoopCount x rest).1, (allLoopCount x rest).2 + 1)
      | .ok false => (.ok false, 1)
      | .error e => (.error e, 1)

/-- A user predicate that raises a `ValueError` on every input. -/
def raisesValueError : PyVal → Except PyErr PyVal :=
  fun _ => .error (.valueError "boom")

/-- A user predicate that raises a `TypeError` on every input (like `len(x)`
applied to a value with no length). -/
def raisesTypeError : PyVal → Except PyErr PyVal :=
  fun _ => .error (.typeError "object has no len")

/-- A function `def fAB(ab: int): return "ran"` — one parameter, named by a
2-character string, annotated `int`. -/
def fAB : PyFunc :=
  ⟨["ab"], [("ab", .cls .intC)], fun _ _ => .ok (.str "ran")⟩

/-- A function `def fX(x: int): return "ran"` — one parameter, named by a
1-character string, annotated `int`. -/
def fX : PyFunc :=
  ⟨["x"], [("x", .cls .intC)], fun _ _ => .ok (.str "ran")⟩

/-- A function `def fNoAnn(x): return 7` — no annotations at all. -/
def fNoAnn : PyFunc :=
  ⟨["x"], [], fun _ _ => .ok (.int 7)⟩

/-- A function `def fRet(x) -> int: return x` — only a return annotation. -/
def fRet : PyFunc :=
  ⟨["x"], [("return", .cls .intC)], fun args _ => .ok (args.headD .pyNone)⟩

end Ty

namespace Ty

/-! ### Helper lemmas -/

theorem zip_truncate {α β : Type} :
    ∀ (xs : List α) (ys : List β),
      xs.zip ys = (xs.take ys.length).zip (ys.take xs.length)
  | [], ys => by simp
  | x :: xs, [] => by simp
  | x :: xs, y :: ys => by
      simp only [List.zip_cons_cons, List.length_cons, List.take_succ_cons]
      rw [← zip_truncate xs ys]

theorem allLoop_ok_true_iff (x : PyVal) :
    ∀ ts : List Test, allLoop x ts = .ok true ↔ ∀ t ∈ ts, _check x t = .ok true := by
  intro ts
  induction ts with
  | nil => simp [allLoop]
  | cons t rest ih =>
      cases h : _check x t with
      | ok b =>
          cases b with
          | true => simp [allLoop, h, ih]
          | false => simp [allLoop, h]
      | error e => simp [allLoop, h]

theorem allLoop_prefix_false (x : PyVal) (t : Test) (ts₂ : List Test)
    (hfail : _check x t = .ok false) :
    ∀ ts₁ : List Test, (∀ s ∈ ts₁, _check x s = .ok true) →
      allLoop x (ts₁ ++ t :: ts₂) = .ok false := by
  intro ts₁
  induction ts₁ with
  | nil => intro _; simp [allLoop, hfail]
  | cons s rest ih =>
      intro hok
      have hs : _check x s = .ok true := hok s (by simp)
      simp only [List.cons_append, allLoop, hs]
      exact ih fun u hu => hok u (by simp [hu])

theorem allLoopCount_prefix (x : PyVal) (t : Test) (ts₂ : List Test)
    (hfail : _check x t = .ok false) :
    ∀ ts₁ : List Test, (∀ s ∈ ts₁, _check x s = .ok true) →
      (allLoopCount x (ts₁ ++ t :: ts₂)).2 = ts₁.length + 1 := by
  intro ts₁
  induction ts₁ with
  | nil => intro _; simp [allLoopCount, hfail]
  | cons s rest ih =>
      intro hok
      have hs : _check x s = .ok true := hok s (by simp)
      simp only [List.cons_append, allLoopCount, hs, List.length_cons]
      rw [List.append_eq, ih fun u hu => hok u (by simp [hu])]

/-! ### Claims -/

/-- C7: `all()` with zero sub-specs evaluates to true for any input, and
`any()` with zero sub-specs evaluates to false for any input. -/
theorem c7_empty_all_true_empty_any_false (v : PyVal) :
    _check v (all []) = .ok true ∧ _check v (any []) = .ok false :=
  ⟨rfl, rfl⟩

/-- C9: constructing an `InputTypeCheckError` whose name is the reserved
return marker never succeeds: for every value and spec it raises the
unconditional `TypeError` about using the output exception instead. -/
theorem c9_input_error_return_marker_raises (v : PyVal) (t : Test) :
    mkInputTypeCheckError "return" v t =
      .error (.typeError "Input exception used on output. For output, use OutputTypeCheckError.") :=
  rfl

/-- C1 counterexample at a concrete input: for the class `abcC`, whose
metaclass is not `type`, `_check` answers `true` on the value `5` even
though `5` is not an instance of that class (the class is dispatched to the
callable branch and invoked), refuting the claimed equivalence for every
type/class used as a spec. -/
theorem c1_counterexample :
    _check (.int 5) (.cls .abcC) = .ok true ∧
      (PyVal.int 5).isinstance .abcC = false :=
  ⟨rfl, rfl⟩

/-- C1 (amended): for every value and every class whose metaclass is exactly
`type`, `_check` returns exactly the `isinstance` verdict (instance of the
class or a subclass), with no invocation of the class. -/
theorem c1_typespec_is_isinstance (v : PyVal) (c : ClassId)
    (h : c.metaIsType = true) :
    _check v (.cls c) = .ok (v.isinstance c) := by
  simp [_check, h]

theorem c1_typespec_is_isinstance_witness :
    ClassId.metaIsType .intC = true ∧
      _check (.bool true) (.cls .intC) = .ok ((PyVal.bool true).isinstance .intC) :=
  ⟨rfl, c1_typespec_is_isinstance (.bool true) .intC rfl⟩

/-- C2 (code bug, evaluated at the failing input): the function
`def fAB(ab: int): return "ran"` called as `fAB(ab=2.5)`: the value `2.5`
fails the declared `int` spec, yet the wrapper raises nothing and the body
runs to completion, because the keyword loop iterates the dict keys and
unpacks the 2-character key `"ab"` into the pair `("a", "b")`, which matches
no annotation. -/
theorem c2_failing_keyword_skips_check_body_runs :
    _check (.float 25) (.cls .intC) = .ok false ∧
      callTypechecked (typecheck fAB) [] [("ab", .float 25)] = .ok (.str "ran") :=
  ⟨rfl, rfl⟩

/-- C4 (code bug, evaluated at the failing input): the function
`def fX(x: int): return "ran"` called as `fX(x=2.5)`: instead of pairing the
name `x` with the value `2.5` and checking it, the wrapper tuple-unpacks the
1-character key `"x"` and raises a `ValueError`, not an
`InputTypeCheckError`. -/
theorem c4_keyword_unpack_raises_valueerror :
    _check (.float 25) (.cls .intC) = .ok false ∧
      callTypechecked (typecheck fX) [] [("x", .float 25)] =
        .error (.raised (.valueError "values to unpack")) :=
  ⟨rfl, rfl⟩

/-- C5 counterexample at a concrete input: inside `any()`, a sub-spec that
raises a `ValueError` is NOT caught: the error propagates to the caller of
the evaluation instead of counting as a failed sub-spec. -/
theorem c5_counterexample :
    _check (.int 0) (any [.call raisesValueError]) =
      .error (.valueError "boom") :=
  rfl

/-- C5 (amended): inside `any()`, a sub-spec whose evaluation raises a
`TypeError` is caught, counted as false, and evaluation proceeds to the
remaining sub-specs (the composite evaluates exactly as it would without the
raising sub-spec); errors that are not `TypeError`s propagate. -/
theorem c5_any_catches_typeerror (x : PyVal) (t : Test) (rest : List Test)
    (e : PyErr) (hraise : _check x t = .error e) (hty : e.isTypeError = true) :
    _check x (any (t :: rest)) = _check x (any rest) := by
  simp [any, _check, anyLoop, hraise, hty]

theorem c5_any_catches_typeerror_witness :
    _check (.int 6) (any [.call raisesTypeError, .cls .intC]) =
      _check (.int 6) (any [.cls .intC]) :=
  c5_any_catches_typeerror (.int 6) (.call raisesTypeError) [.cls .intC]
    (.typeError "object has no len") rfl rfl

/-- C6: an `all()` composite evaluates to true iff every sub-spec evaluates
to true on the value; sub-specs are evaluated left-to-right and evaluation
stops at the first false sub-spec — after it the composite is false and the
instrumented call count shows no later sub-spec was evaluated. -/
theorem c6_all_iff_and_short_circuit (x : PyVal) :
    (∀ ts : List Test, _check x (all ts) = .ok true ↔ ∀ t ∈ ts, _check x t = .ok true) ∧
    (∀ (ts₁ : List Test) (t : Test) (ts₂ : List Test),
      (∀ s ∈ ts₁, _check x s = .ok true) → _check x t = .ok false →
        _check x (all (ts₁ ++ t :: ts₂)) = .ok false ∧
        (allLoopCount x (ts₁ ++ t :: ts₂)).2 = ts₁.length + 1) := by
  constructor
  · intro ts
    simpa [all, _check] using allLoop_ok_true_iff x ts
  · intro ts₁ t ts₂ hok hfail
    exact ⟨by simpa [all, _check] using allLoop_prefix_false x t ts₂ hfail ts₁ hok,
           allLoopCount_prefix x t ts₂ hfail ts₁ hok⟩

theorem c6_all_iff_and_short_circuit_witness :
    _check (.int 3) (all [.cls .intC, .cls .strC, .cls .floatC]) = .ok false ∧
      (allLoopCount (.int 3) [.cls .intC, .cls .strC, .cls .floatC]).2 = 2 := by
  have h := (c6_all_iff_and_short_circuit (.int 3)).2 [.cls .intC] (.cls .strC) [.cls .floatC]
    (by intro s hs; rw [List.mem_singleton] at hs; subst hs; rfl) rfl
  exact ⟨h.1, h.2⟩

/-- C3: when the input checks pass and the body returns, the wrapper
evaluates the actual returned value against the declared return spec; on a
false verdict it raises an `OutputTypeCheckError` carrying the return
marker, the actual value, and the return spec, and on a true verdict it
returns the original output unchanged. -/
theorem c3_output_checked_against_actual (f : PyFunc) (args : List PyVal)
    (kwargs : List (String × PyVal)) (out : PyVal) (t : Test)
    (hin : inputPhase f args kwargs = .ok ())
    (hbody : f.body args kwargs = .ok out)
    (hret : findAnn f.annotations "return" = Option.some t) :
    (_check out t = .ok false →
      callWrapper f args kwargs = .error (.output (mkOutputTypeCheckError out t))) ∧
    (_check out t = .ok true → callWrapper f args kwargs = .ok out) := by
  constructor <;> intro h <;> simp [callWrapper, hin, hbody, hret, h]

theorem c3_output_checked_against_actual_witness :
    callWrapper fRet [.int 4] [] = .ok (.int 4) :=
  (c3_output_checked_against_actual fRet [.int 4] [] (.int 4) (.cls .intC)
    rfl rfl rfl).2 rfl

/-- C8 (code bug, evaluated at the failing input): the function
`def fNoAnn(x): return 7` declares no specs at all, yet `typecheck` does not
return it unchanged: `hasattr(f, "__annotations__")` is true for every
Python 3 function, so a wrapper is built — and that wrapper is not
behaviorally equivalent either: calling it as `fNoAnn(x=5)` raises a
`ValueError` from unpacking the keyword name, while the original call
returns `7`. -/
theorem c8_no_spec_function_still_wrapped :
    typecheck fNoAnn = .wrapped fNoAnn ∧
      callTypechecked (typecheck fNoAnn) [] [("x", .int 5)] =
        .error (.raised (.valueError "values to unpack")) ∧
      callTypechecked (.original fNoAnn) [] [("x", .int 5)] = .ok (.int 7) :=
  ⟨rfl, rfl, rfl⟩

/-- C10: in a positional-only call, only the positionally supplied values
zipped with the declared parameter names are validated: declared parameters
beyond the supplied arguments (those taking default values) and supplied
arguments beyond the declared names contribute nothing to the input phase. -/
theorem c10_only_supplied_positional_checked (f : PyFunc) (args : List PyVal) :
    inputPhase f args [] = checkPositional f.annotations (f.argNames.zip args) ∧
    checkPositional f.annotations (f.argNames.zip args) =
      checkPositional f.annotations
        ((f.argNames.take args.length).zip (args.take f.argNames.length)) := by
  constructor
  · cases h : checkPositional f.annotations (f.argNames.zip args) with
    | ok u => cases u; simp [inputPhase, h, checkKwargs]
    | error e => simp [inputPhase, h]
  · rw [← zip_truncate]

end Ty
